import Mathlib

/-!
Verification development for the conversational interview dialogue manager of
the startup-evaluation repository.  The canonical variant embedded here is
`backend/agents/voice_interview_agent.py` (backup copy), together with the
text-mode driver `live_text_interview.py` for the cancellation path.

Modelling conventions:
* Python strings are Lean `String`s; the Python substring test `a in b` is the
  executable `PyStr.strIn`; `str.lower()` is `PyStr.strLower` (inputs are ASCII);
  `str.split()` is `PyStr.pyWords` (split on whitespace runs, dropping empties);
  `str.strip()` is `PyStr.pyStrip`.
* Python floats are modelled as exact rationals `ℚ`; `round(x, 2)` is `round2`
  (round half to even at two decimals, over exact rationals).
* Python dicts holding insight flags are association lists `List (String × Bool)`
  with `dictLookupD` (= `dict.get(k, False)`) and `dictUpdateTrue`
  (= `dict.update({k: True for k in ks})`).
* `datetime.now()` timestamps and audio metadata are external-world reads with
  no bearing on any analysed property; they are omitted from the turn records.
-/

namespace PyStr

/-- ASCII whitespace characters recognised by Python `str.split()` / `str.strip()`. -/
def isWsChar (c : Char) : Bool :=
  c == ' ' || c == '\t' || c == '\n' || c == '\r' || c == '\x0b' || c == '\x0c'

/-- Helper for `pyWords`: accumulate the current word (reversed) while scanning. -/
def splitWordsAux : List Char → List Char → List (List Char)
  | [], acc => if acc.isEmpty then [] else [acc.reverse]
  | c :: cs, acc =>
    if isWsChar c then
      if acc.isEmpty then splitWordsAux cs [] else acc.reverse :: splitWordsAux cs []
    else splitWordsAux cs (c :: acc)

/-- Python `s.split()`: split on runs of whitespace, discarding empty pieces. -/
def pyWords (s : String) : List String :=
  (splitWordsAux s.toList []).map fun w => String.mk w

/-- Python `len(s.split())`. -/
def pyWordCount (s : String) : Nat := (splitWordsAux s.toList []).length

/-- Boolean test that `a` is a leading segment of `b`. -/
def isPrefOf : List Char → List Char → Bool
  | [], _ => true
  | _ :: _, [] => false
  | a :: as, b :: bs => a == b && isPrefOf as bs

/-- Boolean test that `needle` occurs contiguously inside the haystack. -/
def containsSub (needle : List Char) : List Char → Bool
  | [] => needle.isEmpty
  | c :: t => isPrefOf needle (c :: t) || containsSub needle t

/-- Python `needle in hay` (substring containment). -/
def strIn (needle hay : String) : Bool := containsSub needle.toList hay.toList

/-- Python `s.lower()` for ASCII input. -/
def strLower (s : String) : String := String.mk (s.toList.map Char.toLower)

/-- Python `s.strip()`: drop leading and trailing whitespace. -/
def pyStrip (s : String) : String :=
  String.mk (((s.toList.dropWhile isWsChar).reverse.dropWhile isWsChar).reverse)

/-- Python `s.replace("_", " ")`. -/
def underscoreToSpace (s : String) : String :=
  String.mk (s.toList.map fun c => if c == '_' then ' ' else c)

end PyStr

/-- Round half to even (banker's rounding) to the nearest integer, the tie rule
of Python `round`, stated over exact rationals. -/
def rhe (q : ℚ) : ℤ :=
  if Int.fract q < 1/2 then ⌊q⌋
  else if 1/2 < Int.fract q then ⌊q⌋ + 1
  else if ⌊q⌋ % 2 = 0 then ⌊q⌋ else ⌊q⌋ + 1

/-- Python `round(x, 2)` modelled over exact rationals. -/
def round2 (q : ℚ) : ℚ := (rhe (100 * q) : ℚ) / 100

/-- Association-list lookup modelling Python `d.get(k, False)`. -/
def dictLookupD : List (String × Bool) → String → Bool
  | [], _ => false
  | (k', v) :: t, k => if k' = k then v else dictLookupD t k

/-- Set one key of an association list, replacing an existing binding in place
or appending a fresh one (Python `d[k] = v`). -/
def dictSet : List (String × Bool) → String → Bool → List (String × Bool)
  | [], k, v => [(k, v)]
  | (k', v') :: t, k, v => if k' = k then (k', v) :: t else (k', v') :: dictSet t k v

/-- Python `d.update({k: True for k in ks})`. -/
def dictUpdateTrue (d : List (String × Bool)) (ks : List String) : List (String × Bool) :=
  ks.foldl (fun acc k => dictSet acc k true) d

namespace VoiceAgent

open PyStr

/-- Output of `analyze_response_content` (the Python analysis dict).  The
`insights` field lists, in taxonomy order, the topic keywords found in the
utterance — the keys of the Python dict, whose values are always `True`. -/
structure AnalysisRecord where
  word_count : Nat
  sentiment_score : ℚ
  quality_score : ℚ
  insights : List String
  key_phrases : List String
  needs_follow_up : Bool
deriving Repr, DecidableEq

/-- One entry of `conversation_history`.  Founder entries carry an analysis
record and no question type; interviewer entries carry a question type and no
analysis.  Timestamps and audio metadata are external reads, omitted. -/
structure Turn where
  speaker : String
  content : String
  topic : String
  analysis : Option AnalysisRecord
  question_type : Option String
deriving Repr, DecidableEq

/-- The mutable conversation state initialised by `start_live_voice_interview`
(identifier, founder identity and clock fields omitted as external). -/
structure SessionData where
  founder_name : String
  current_topic : String
  conversation_history : List Turn
  questions_asked : List String
  insights_gathered : List (String × Bool)
  rapport_level : ℚ
deriving Repr, DecidableEq

/-- Return value of the question-generation helpers: the dict
`{"message": …, "topic": …, "type": …}`. -/
structure NextInteraction where
  message : String
  topic : String
  qtype : String
deriving Repr, DecidableEq

/-- Positive-word lexicon of `analyze_response_content`. -/
def positive_words : List String :=
  ["excited", "confident", "growing", "successful", "strong", "excellent",
   "passionate", "love", "amazing", "fantastic"]

/-- Negative-word lexicon of `analyze_response_content`. -/
def negative_words : List String :=
  ["challenging", "difficult", "struggling", "worried", "concerned", "problem",
   "issue", "hard", "tough"]

/-- Per-topic keyword taxonomy of `extract_topic_insights`. -/
def topic_keywords_insights (t : String) : List String :=
  if t = "business_model" then
    ["revenue", "pricing", "customers", "sales", "subscription", "b2b", "b2c"]
  else if t = "market_opportunity" then
    ["market", "competitors", "competition", "differentiate", "market share", "tam", "sam"]
  else if t = "traction_metrics" then
    ["revenue", "customers", "retention", "growth", "metrics", "kpi", "mrr", "arr"]
  else if t = "team_execution" then
    ["team", "founder", "hiring", "culture", "experience", "cto", "ceo"]
  else if t = "financial_planning" then
    ["burn rate", "funding", "runway", "profitability", "projections", "cash"]
  else if t = "product_development" then
    ["product", "roadmap", "feedback", "technical", "development", "features"]
  else if t = "risks_challenges" then
    ["risk", "challenge", "regulatory", "competitor", "problem", "threat"]
  else if t = "vision_strategy" then
    ["vision", "strategy", "expansion", "partnership", "future", "exit"]
  else []

/-- The eight topic keys recognised by `extract_topic_insights`. -/
def recognized_topics : List String :=
  ["business_model", "market_opportunity", "traction_metrics", "team_execution",
   "financial_planning", "product_development", "risks_challenges", "vision_strategy"]

/-- `extract_topic_insights(response_lower, current_topic)`: the keywords of the
current topic found in the (already lowercased) utterance, i.e. the keys set
`True` in the returned dict, in taxonomy order. -/
def extract_topic_insights (response_lower : String) (current_topic : String) : List String :=
  (topic_keywords_insights current_topic).filter fun keyword => strIn keyword response_lower

/-- Business-phrase list of `extract_key_phrases`. -/
def business_phrases : List String :=
  ["product market fit", "go to market", "customer acquisition cost", "lifetime value",
   "monthly recurring revenue", "annual recurring revenue", "burn rate", "runway",
   "series a", "series b", "seed funding", "venture capital", "market size"]

/-- `extract_key_phrases(response_lower)`. -/
def extract_key_phrases (response_lower : String) : List String :=
  business_phrases.filter fun phrase => strIn phrase response_lower

/-- Specificity indicators of `assess_response_quality`. -/
def specificity_indicators : List String :=
  ["for example", "specifically", "$", "%", "customers", "months", "years"]

/-- `assess_response_quality(response, current_topic, word_count)`.  The
`current_topic` parameter is unused by the source body and kept for fidelity. -/
def assess_response_quality (response : String) (current_topic : String)
    (word_count : Nat) : ℚ :=
  let length_score : ℚ :=
    if word_count < 20 then 0.2
    else if word_count < 50 then 0.6
    else if word_count ≤ 200 then 1.0
    else 0.8
  let specificity_count : Nat :=
    ((specificity_indicators.filter fun indicator => strIn indicator (strLower response)).length)
  let specificity_score : ℚ := min ((specificity_count : ℚ) / 3) 1.0
  let _ := current_topic
  round2 (length_score * 0.4 + specificity_score * 0.6)

/-- Number of positive-lexicon words occurring (as substrings) in the lowercased
utterance: `sum(1 for word in positive_words if word in response_lower)`. -/
def positive_count (response : String) : Nat :=
  (positive_words.filter fun word => strIn word (strLower response)).length

/-- Number of negative-lexicon words occurring in the lowercased utterance. -/
def negative_count (response : String) : Nat :=
  (negative_words.filter fun word => strIn word (strLower response)).length

/-- `analyze_response_content(response, current_topic)`.  Pure: every branch of
the source body is total, so the enclosing `try/except` is dead code. -/
def analyze_response_content (response : String) (current_topic : String) : AnalysisRecord :=
  let response_lower := strLower response
  let word_count := pyWordCount response
  let pc := positive_count response
  let nc := negative_count response
  let sentiment_score : ℚ :=
    if pc + nc > 0 then (pc : ℚ) / ((pc : ℚ) + (nc : ℚ)) else 0.5
  let insights := extract_topic_insights response_lower current_topic
  let quality_score := assess_response_quality response current_topic word_count
  { word_count := word_count
    sentiment_score := sentiment_score
    quality_score := quality_score
    insights := insights
    key_phrases := extract_key_phrases response_lower
    needs_follow_up := decide (quality_score < 0.6) || decide (word_count < 20) }

end VoiceAgent

namespace VoiceAgent

/-- Sentiment stored on a history entry:
`msg.get("analysis", {}).get("sentiment_score", 0.5)`. -/
def turn_sentiment (t : Turn) : ℚ :=
  match t.analysis with
  | some a => a.sentiment_score
  | none => 0.5

/-- `calculate_rapport_level(conversation_history)`.  The source divides by
`len(founder_responses)` without a guard, so a history of length ≥ 2 with no
founder entry raises `ZeroDivisionError`; that is modelled as `none`. -/
def calculate_rapport_level (conversation_history : List Turn) : Option ℚ :=
  if conversation_history.length < 2 then some 0.5
  else
    let founder_responses := conversation_history.filter fun msg => msg.speaker == "founder"
    if founder_responses.isEmpty then none
    else
      let avg_response_length : ℚ :=
        ((founder_responses.map fun msg => (PyStr.pyWordCount msg.content : ℚ)).sum) /
          (founder_responses.length : ℚ)
      let length_score : ℚ := min (avg_response_length / 100) 1.0
      let sentiment_scores := founder_responses.map turn_sentiment
      let avg_sentiment : ℚ :=
        if sentiment_scores.isEmpty then 0.5
        else sentiment_scores.sum / (sentiment_scores.length : ℚ)
      some (round2 (length_score * 0.4 + avg_sentiment * 0.6))

/-- Per-topic keyword taxonomy local to `calculate_topic_coverage` (a distinct,
four-entry table — not the one in `extract_topic_insights`). -/
def topic_keywords_coverage (t : String) : List String :=
  if t = "business_model" then ["revenue", "pricing", "customers", "sales"]
  else if t = "market_opportunity" then ["market", "competitors", "competition", "differentiate"]
  else if t = "traction_metrics" then ["revenue", "customers", "retention", "growth"]
  else if t = "team_execution" then ["team", "founder", "hiring", "culture"]
  else if t = "financial_planning" then ["burn rate", "funding", "runway", "profitability"]
  else if t = "product_development" then ["product", "roadmap", "feedback", "technical"]
  else if t = "risks_challenges" then ["risk", "challenge", "regulatory", "competitor"]
  else if t = "vision_strategy" then ["vision", "strategy", "expansion", "partnership"]
  else []

/-- Founder turns of the history attributed to `topic`. -/
def topic_founder_messages (s : SessionData) (topic : String) : List Turn :=
  s.conversation_history.filter fun msg => msg.topic == topic && msg.speaker == "founder"

/-- `calculate_topic_coverage(session_data, topic)`. -/
def calculate_topic_coverage (s : SessionData) (topic : String) : ℚ :=
  let topic_messages := topic_founder_messages s topic
  if topic_messages.isEmpty then 0.0
  else
    let total_words : Nat := (topic_messages.map fun msg => PyStr.pyWordCount msg.content).sum
    let expected_keywords := topic_keywords_coverage topic
    let covered_keywords : Nat :=
      (expected_keywords.filter fun keyword => dictLookupD s.insights_gathered keyword).length
    let keyword_coverage : ℚ :=
      if expected_keywords.isEmpty then 0
      else (covered_keywords : ℚ) / (expected_keywords.length : ℚ)
    let word_score : ℚ := min ((total_words : ℚ) / 150) 1.0
    round2 (word_score * 0.4 + keyword_coverage * 0.6)

/-- The standard interview flow of `determine_next_topic`. -/
def topic_flow : List String :=
  ["introduction", "business_model", "market_opportunity", "traction_metrics",
   "team_execution", "financial_planning", "product_development", "risks_challenges",
   "vision_strategy"]

/-- Position of a topic in `topic_flow`; `none` models the `ValueError` of
`list.index` on a missing element. -/
def topicIdx : List String → String → Option Nat
  | [], _ => none
  | x :: xs, t => if x = t then some 0 else (topicIdx xs t).map (· + 1)

/-- `determine_next_topic(session_data)`. -/
def determine_next_topic (s : SessionData) : String :=
  match topicIdx topic_flow s.current_topic with
  | some current_index =>
      if current_index < topic_flow.length - 1 then topic_flow.getD (current_index + 1) ""
      else "conclusion"
  | none => "business_model"

/-- Follow-up question bank of `generate_follow_up_question`, keyed by topic;
`founder_name` is interpolated into the introduction entries. -/
def follow_up_bank (founder_name : String) (t : String) : Option (List String) :=
  if t = "introduction" then some
    ["That\x27s fascinating, " ++ founder_name ++ "! Can you tell me more about that specific moment when you realized this was a problem worth solving?",
     "I love the passion I\x27m hearing! What was the \x27aha moment\x27 that made you think this could be a big business?",
     "That sounds like quite a journey! What\x27s been the most surprising thing you\x27ve learned so far?"]
  else if t = "business_model" then some
    ["That\x27s interesting! Can you walk me through a specific example of how that works in practice?",
     "I see! And how do your customers typically respond to that pricing model?",
     "Got it! What\x27s been the biggest challenge in getting customers to adopt this approach?"]
  else if t = "market_opportunity" then some
    ["That market size sounds significant! How did you validate those numbers?",
     "Interesting positioning! Can you give me a concrete example of how you\x27re different from [competitor]?",
     "That\x27s a compelling opportunity! What gives you confidence you can capture that market share?"]
  else if t = "traction_metrics" then some
    ["Those are solid numbers! What\x27s driving that growth specifically?",
     "That\x27s impressive! Can you tell me about one of those customer success stories?",
     "Great progress! What\x27s the story behind your best-performing customer segment?"]
  else none

/-- `generate_follow_up_question(session_data, response_analysis)`:
`follow_ups.get(current_topic, follow_ups["introduction"])`, indexed by
`len(questions_asked) % len(bank)`. -/
def generate_follow_up_question (s : SessionData) (response_analysis : AnalysisRecord) :
    NextInteraction :=
  let _ := response_analysis
  let topic_questions :=
    (follow_up_bank s.founder_name s.current_topic).getD
      ((follow_up_bank s.founder_name "introduction").getD [])
  let question := topic_questions.getD (s.questions_asked.length % topic_questions.length) ""
  { message := question, topic := s.current_topic, qtype := "follow_up" }

/-- Transition template table of `generate_topic_transition`, keyed by the
ordered pair (current topic, next topic). -/
def transition_table (founder_name : String) : String → String → Option String :=
  fun cur nxt =>
    if cur = "introduction" ∧ nxt = "business_model" then some
      ("Thanks for sharing that background, " ++ founder_name ++ "! Now I\x27d love to understand the business side better. How exactly do you make money? Walk me through your revenue model.")
    else if cur = "business_model" ∧ nxt = "market_opportunity" then some
      "That business model makes sense! Now let\x27s talk about the market you\x27re going after. How big is this opportunity, and who else is competing for it?"
    else if cur = "market_opportunity" ∧ nxt = "traction_metrics" then some
      "The market opportunity sounds compelling! I\x27m curious about the traction you\x27re seeing. What does your growth look like so far?"
    else if cur = "traction_metrics" ∧ nxt = "team_execution" then some
      "Those metrics are encouraging! Let\x27s talk about the team behind this growth. Tell me about your founding team and how you\x27re thinking about scaling."
    else if cur = "team_execution" ∧ nxt = "financial_planning" then some
      "Sounds like you have a strong team! Now let\x27s get into the numbers. What\x27s your current financial situation and funding needs?"
    else if cur = "financial_planning" ∧ nxt = "product_development" then some
      "Got it on the financials! I\x27d love to hear about your product roadmap. Where is the product heading next?"
    else if cur = "product_development" ∧ nxt = "risks_challenges" then some
      "Exciting product plans! Now, every business faces challenges. What keeps you up at night as a founder?"
    else if cur = "risks_challenges" ∧ nxt = "vision_strategy" then some
      ("I appreciate your honesty about those challenges, " ++ founder_name ++ "! Let\x27s end on a high note - where do you see this company in 5 years?")
    else none

/-- `generate_topic_transition(session_data, current_topic, next_topic)`. -/
def generate_topic_transition (s : SessionData) (current_topic next_topic : String) :
    NextInteraction :=
  let message :=
    (transition_table s.founder_name current_topic next_topic).getD
      ("Great! Now let\x27s talk about " ++ PyStr.underscoreToSpace next_topic ++ ".")
  { message := message, topic := next_topic, qtype := "transition" }

/-- Primary question banks of `get_interview_questions` (the `"primary"` lists). -/
def interview_primary_questions (t : String) : List String :=
  if t = "business_model" then
    ["Walk me through how you make money. What\x27s your revenue model?",
     "How do you price your product, and what\x27s the thinking behind that strategy?",
     "Who exactly is your customer, and what problem are you solving for them?",
     "Tell me about your sales process. How do you actually get customers?"]
  else if t = "market_opportunity" then
    ["How big is this market, and how fast is it growing?",
     "Who are you competing against, and how are you different?",
     "What barriers exist to entering this market?",
     "How do you plan to win market share?"]
  else if t = "traction_metrics" then
    ["What do your revenue and growth numbers look like?",
     "How many customers do you have, and how sticky are they?",
     "What are your key metrics, and how are they trending?",
     "Can you share a customer success story that excites you?"]
  else if t = "team_execution" then
    ["Tell me about your founding team and what you each bring to the table.",
     "What are your biggest hiring needs in the next year?",
     "How do you think about scaling your team and culture?",
     "What\x27s your leadership philosophy as you grow?"]
  else if t = "financial_planning" then
    ["What\x27s your current burn rate and runway situation?",
     "How much are you raising, and what will you use it for?",
     "What do your revenue projections look like?",
     "When do you expect to reach profitability?"]
  else if t = "product_development" then
    ["What\x27s on your product roadmap for the next year?",
     "How do you gather and prioritize customer feedback?",
     "What are your biggest technical challenges?",
     "How do you know you have product-market fit?"]
  else if t = "risks_challenges" then
    ["What are the biggest risks to your business right now?",
     "What keeps you up at night as a founder?",
     "How would you handle a major competitor entering your space?",
     "What regulatory or market changes worry you most?"]
  else if t = "vision_strategy" then
    ["Where do you see this company in 5 years?",
     "What\x27s your long-term vision and potential exit strategy?",
     "How do you think about geographic or market expansion?",
     "What strategic partnerships are you pursuing?"]
  else []

/-- Follow-up question banks of `get_interview_questions` (the `"follow_ups"` lists). -/
def interview_followup_questions (t : String) : List String :=
  if t = "business_model" then
    ["Can you give me a specific example of that in action?",
     "How do customers typically respond to that approach?",
     "What\x27s been the biggest surprise in your customer interactions?"]
  else if t = "market_opportunity" then
    ["How did you validate those market size numbers?",
     "Can you give me a concrete example of your differentiation?",
     "What gives you confidence in your competitive position?"]
  else if t = "traction_metrics" then
    ["What\x27s driving that specific growth?",
     "Tell me more about that customer\x27s journey with you.",
     "What patterns do you see in your best customers?"]
  else if t = "team_execution" then
    ["What\x27s a specific example of how that experience has helped?",
     "How do you plan to maintain culture as you scale?",
     "What\x27s been your biggest learning as a leader?"]
  else if t = "financial_planning" then
    ["Walk me through the assumptions behind those projections.",
     "What\x27s your biggest financial risk right now?",
     "How do you think about capital efficiency?"]
  else if t = "product_development" then
    ["Can you give me an example of how customer feedback changed your product?",
     "What\x27s a specific technical challenge you\x27re proud of solving?",
     "What evidence do you have of product-market fit?"]
  else if t = "risks_challenges" then
    ["How are you actively mitigating that risk?",
     "What would your response plan look like?",
     "How do you stay ahead of those potential challenges?"]
  else if t = "vision_strategy" then
    ["What needs to happen for that vision to become reality?",
     "How do you balance long-term vision with short-term execution?",
     "What would success look like from an investor\x27s perspective?"]
  else []

/-- The topics carrying question banks in `get_interview_questions`. -/
def interview_question_topics : List String :=
  ["business_model", "market_opportunity", "traction_metrics", "team_execution",
   "financial_planning", "product_development", "risks_challenges", "vision_strategy"]

/-- `generate_topic_continuation(session_data, current_topic)`.  For a topic
absent from the question dict both `.get` chains fall back: `primary` to `[]`
and `follow_ups` to the one-element default list. -/
def generate_topic_continuation (s : SessionData) (current_topic : String) :
    NextInteraction :=
  let topic_questions := interview_primary_questions current_topic
  let questions_asked_count :=
    (s.conversation_history.filter fun msg =>
      msg.topic == current_topic && msg.speaker == "interviewer").length
  let question :=
    if questions_asked_count < topic_questions.length then
      topic_questions.getD questions_asked_count ""
    else
      let follow_ups :=
        if current_topic ∈ interview_question_topics then
          interview_followup_questions current_topic
        else ["Can you tell me more about that?"]
      follow_ups.getD (questions_asked_count % follow_ups.length) ""
  { message := question, topic := current_topic, qtype := "continuation" }

/-- `generate_next_conversational_question(session_data, response_analysis)`. -/
def generate_next_conversational_question (s : SessionData)
    (response_analysis : AnalysisRecord) : NextInteraction :=
  if response_analysis.needs_follow_up then
    generate_follow_up_question s response_analysis
  else
    let topic_coverage := calculate_topic_coverage s s.current_topic
    if topic_coverage < 0.7 then generate_topic_continuation s s.current_topic
    else
      let next_topic := determine_next_topic s
      generate_topic_transition s s.current_topic next_topic

/-- `process_founder_response(session_data, founder_response)`: analyze, append
the founder turn, merge insights, recompute rapport, generate the next
interaction, append the interviewer turn, and move `current_topic`.  The
returned progress/status dict is external presentation and omitted; the dead
`ZeroDivisionError` branch of the rapport call falls back to the old level. -/
def process_founder_response (s : SessionData) (founder_response : String) : SessionData :=
  let response_analysis := analyze_response_content founder_response s.current_topic
  let h1 := s.conversation_history ++
    [{ speaker := "founder", content := founder_response, topic := s.current_topic,
       analysis := some response_analysis, question_type := none }]
  let s1 : SessionData :=
    { s with
      conversation_history := h1
      insights_gathered := dictUpdateTrue s.insights_gathered response_analysis.insights
      rapport_level := (calculate_rapport_level h1).getD s.rapport_level }
  let next_interaction := generate_next_conversational_question s1 response_analysis
  { s1 with
    conversation_history := s1.conversation_history ++
      [{ speaker := "interviewer", content := next_interaction.message,
         topic := next_interaction.topic, analysis := none,
         question_type := some next_interaction.qtype }]
    current_topic := next_interaction.topic }

end VoiceAgent

namespace LiveText

open PyStr

/-- Analysis dict of `LiveTextInterviewer.analyze_response`.  On the empty
utterance the source returns a dict without a `word_count` key, modelled as
`none`. -/
structure LiveAnalysis where
  quality_score : ℚ
  sentiment_score : ℚ
  insights : List String
  word_count : Option Nat
deriving Repr, DecidableEq

/-- History entry of the live text interview.  Founder entries carry no topic
key; interviewer entries carry no analysis.  Timestamps omitted as external. -/
structure LTurn where
  speaker : String
  content : String
  topic : Option String
  analysis : Option LiveAnalysis
deriving Repr, DecidableEq

/-- Session state of `LiveTextInterviewer` (identifier and clock omitted). -/
structure LiveState where
  founder_name : String
  startup_name : String
  current_topic : String
  conversation_history : List LTurn
  insights_gathered : List (String × Bool)
  rapport_level : ℚ
  interview_active : Bool
deriving Repr, DecidableEq

/-- Result of `listen_for_response` on one line of typed input. -/
inductive ListenResult where
  | stopInterview : ListenResult
  | invalid : ListenResult
  | ok : String → ListenResult
deriving Repr, DecidableEq

/-- Cancellation sentinels accepted by `listen_for_response`. -/
def stop_phrases : List String := ["stop interview", "stop", "quit", "exit"]

/-- `listen_for_response` on the typed input: strip, detect the cancellation
sentinel, reject the empty response, otherwise pass the text through.
(`KeyboardInterrupt` also maps to the sentinel and input faults to a retry;
both are external events.) -/
def listen_for_response (raw : String) : ListenResult :=
  let response := pyStrip raw
  if strLower response ∈ stop_phrases then .stopInterview
  else if response = "" then .invalid
  else .ok response

/-- Positive-word lexicon of `LiveTextInterviewer.analyze_response`. -/
def positive_words : List String :=
  ["excited", "fantastic", "great", "amazing", "successful", "growing",
   "confident", "passionate", "love", "excellent", "strong", "profitable"]

/-- Negative-word lexicon of `LiveTextInterviewer.analyze_response`. -/
def negative_words : List String :=
  ["challenging", "difficult", "struggling", "worried", "concerned",
   "problem", "issue", "hard", "tough", "failing"]

/-- Business-keyword taxonomy of `analyze_response`, in dict order. -/
def business_keywords : List (String × List String) :=
  [("revenue", ["revenue", "money", "income", "sales", "profit", "pricing", "$"]),
   ("customers", ["customers", "clients", "users", "market", "customer"]),
   ("team", ["team", "founder", "employees", "hiring", "ceo", "cto"]),
   ("funding", ["funding", "investment", "capital", "raise", "investor"]),
   ("growth", ["growth", "growing", "scale", "expansion", "traction"]),
   ("product", ["product", "platform", "technology", "software", "ai"]),
   ("competition", ["competitors", "competition", "differentiate", "advantage"])]

/-- `LiveTextInterviewer.analyze_response(response_text)`. -/
def analyze_response (response_text : String) : LiveAnalysis :=
  if response_text = "" then
    { quality_score := 0, sentiment_score := 0.5, insights := [], word_count := none }
  else
    let lower := strLower response_text
    let word_count := pyWordCount response_text
    let pc := (positive_words.filter fun w => strIn (strLower w) lower).length
    let nc := (negative_words.filter fun w => strIn (strLower w) lower).length
    let sentiment_score : ℚ :=
      if pc + nc > 0 then (pc : ℚ) / ((pc : ℚ) + (nc : ℚ)) else 0.5
    let insights :=
      (business_keywords.filter fun ckw => ckw.2.any fun keyword => strIn keyword lower).map
        Prod.fst
    let length_score : ℚ := min ((word_count : ℚ) / 50) 1.0
    let specificity_score : ℚ := (insights.length : ℚ) / (business_keywords.length : ℚ)
    let quality_score := length_score * 0.4 + sentiment_score * 0.3 + specificity_score * 0.3
    { quality_score := quality_score, sentiment_score := sentiment_score,
      insights := insights, word_count := some word_count }

/-- The topic-question transition table of `generate_next_question`: maps the
current topic to (next topic, question text), with the enthusiasm prefix and
the founder/startup names interpolated. -/
def topic_question_table (fn sn pre : String) (t : String) : Option (String × String) :=
  if t = "introduction" then some ("business_model",
    pre ++ "Thanks for sharing that background, " ++ fn ++ "! I\x27m really excited to learn more about " ++ sn ++ ". Now let\x27s dive into the business mechanics - how exactly do you make money? What\x27s your revenue model and pricing strategy?")
  else if t = "business_model" then some ("market_opportunity",
    pre ++ "That business model makes sense! Now I\x27m curious about the market you\x27re targeting. How big is this opportunity? Who are your main competitors and how do you differentiate from them?")
  else if t = "market_opportunity" then some ("traction_metrics",
    pre ++ "The market opportunity sounds compelling! Let\x27s talk about your traction. What does your growth look like? Can you share some key metrics, customer numbers, or success stories?")
  else if t = "traction_metrics" then some ("team_execution",
    pre ++ "Those are encouraging numbers! Tell me about the team behind this success. What\x27s your background? Who are your co-founders? How are you thinking about scaling the team?")
  else if t = "team_execution" then some ("funding_vision",
    pre ++ "Sounds like you have a strong foundation! Looking ahead, what are your funding needs? How much are you raising and what will you use it for? What\x27s your long-term vision for " ++ sn ++ "?")
  else if t = "funding_vision" then some ("conclusion",
    pre ++ "That\x27s an exciting vision, " ++ fn ++ "! Before we wrap up, what questions do you have for me? What would you like to know about our investment process or what we typically look for in startups?")
  else none

/-- `LiveTextInterviewer.generate_next_question(response_analysis)`: bump the
rapport level from the response quality, build the enthusiasm prefix from the
sentiment, then either advance along the six-entry topic table or emit the
out-of-table thank-you message, returning the updated state and the question. -/
def generate_next_question (st : LiveState) (response_analysis : LiveAnalysis) :
    LiveState × String :=
  let rapport :=
    if response_analysis.quality_score > 0.7 then min (st.rapport_level + 0.15) 1.0
    else if response_analysis.quality_score > 0.5 then min (st.rapport_level + 0.05) 1.0
    else st.rapport_level
  let enthusiasm_prefix :=
    if response_analysis.sentiment_score > 0.7 then "That\x27s fantastic! "
    else if response_analysis.sentiment_score > 0.5 then "That sounds great! "
    else ""
  let st1 := { st with rapport_level := rapport }
  match topic_question_table st.founder_name st.startup_name enthusiasm_prefix
      st.current_topic with
  | some (next_topic, question) =>
      ({ st1 with current_topic := next_topic }, question)
  | none =>
      (st1, "Thank you so much for this conversation, " ++ st.founder_name ++ "! This has been really insightful learning about " ++ st.startup_name ++ ". We\x27ll review everything and be in touch soon with next steps. I\x27m excited about what you\x27re building!")

/-- Outcome of one pass of the `conduct_live_interview` loop body. -/
inductive StepResult where
  | stopped : StepResult
  | retry : StepResult
  | asked : String → StepResult
  | finale : String → StepResult
deriving Repr, DecidableEq

/-- One iteration of the main loop of `conduct_live_interview`, from the typed
input to the next spoken question: the cancellation sentinel breaks out before
any analysis; an empty input retries without touching the session; otherwise
the response is analyzed, both turns are appended, insights merged, and the
loop either continues (`asked`) or enters the conclusion hand-off (`finale`). -/
def interviewStep (st : LiveState) (raw : String) : LiveState × StepResult :=
  match listen_for_response raw with
  | .stopInterview => (st, .stopped)
  | .invalid => (st, .retry)
  | .ok response =>
      let analysis := analyze_response response
      let h1 := st.conversation_history ++
        [{ speaker := "founder", content := response, topic := none,
           analysis := some analysis }]
      let st1 := { st with
        conversation_history := h1
        insights_gathered := dictUpdateTrue st.insights_gathered analysis.insights }
      let (st2, next_question) := generate_next_question st1 analysis
      let st3 := { st2 with
        conversation_history := st2.conversation_history ++
          [{ speaker := "interviewer", content := next_question,
             topic := some st2.current_topic, analysis := none }] }
      if st3.current_topic = "conclusion" then (st3, .finale next_question)
      else (st3, .asked next_question)

/-- Investment-recommendation label computed at the end of
`print_interview_summary` from the final rapport level and insight count. -/
def interviewRecommendation (st : LiveState) : String :=
  if st.rapport_level > 0.8 ∧ st.insights_gathered.length ≥ 5 then
    "High Interest - Recommend Next Steps"
  else if st.rapport_level > 0.6 ∧ st.insights_gathered.length ≥ 3 then
    "Moderate Interest - Further Evaluation"
  else if st.rapport_level < 0.5 ∨ st.insights_gathered.length < 2 then
    "Limited Interest - Pass"
  else "Strong Interest"

end LiveText

namespace VoiceAgent

/-- Statement helper: the immediate successor of a topic in the fixed order
(`"conclusion"` after the last topic); identity off the flow. -/
def flowSucc (t : String) : String :=
  match topicIdx topic_flow t with
  | some i => topic_flow.getD (i + 1) "conclusion"
  | none => t

/-- Statement helper: position of a topic along the flow, with the terminal
marker `"conclusion"` ranked after the last topic. -/
def topicRank (t : String) : Nat :=
  match topicIdx topic_flow t with
  | some i => i
  | none => topic_flow.length

/-- The topic values reachable by the controller: the fixed sequence plus the
terminal marker. -/
def reachable_topics : List String := topic_flow ++ ["conclusion"]

/-- Scenario A utterance from the specification. -/
def scenarioA_utterance : String :=
  "We charge $99 per month and our customers love the product."

/-- A 40-word founder reply used to build a witness session with high topic
coverage. -/
def forty_word_reply : String :=
  "go go go go go go go go go go go go go go go go go go go go go go go go go go go go go go go go go go go go go go go go"

/-- Witness session for the transition rule: `business_model` fully covered
(all four coverage keywords flagged, 40 words on topic). -/
def covered_bm_session : SessionData :=
  { founder_name := "Ada"
    current_topic := "business_model"
    conversation_history :=
      [{ speaker := "founder", content := forty_word_reply, topic := "business_model",
         analysis := none, question_type := none }]
    questions_asked := []
    insights_gathered :=
      [("revenue", true), ("pricing", true), ("customers", true), ("sales", true)]
    rapport_level := 0.5 }

/-- An analysis record with `needs_follow_up` cleared, for exercising the
advance branch of the controller. -/
def no_follow_up_analysis : AnalysisRecord :=
  { word_count := 40, sentiment_score := 0.5, quality_score := 1, insights := [],
    key_phrases := [], needs_follow_up := false }

/-- An analysis record with `needs_follow_up` set, for exercising the
follow-up branch of the controller. -/
def follow_up_analysis : AnalysisRecord :=
  { word_count := 3, sentiment_score := 0.5, quality_score := 0.2, insights := [],
    key_phrases := [], needs_follow_up := true }

/-- First entry of the `business_model` follow-up bank. -/
def bm_follow_up_0 : String :=
  "That\x27s interesting! Can you walk me through a specific example of how that works in practice?"

/-- Second entry of the `business_model` follow-up bank. -/
def bm_follow_up_1 : String :=
  "I see! And how do your customers typically respond to that pricing model?"

/-- Counterexample session for the follow-up rotation claim: one follow-up was
already asked on `business_model` (and recorded in the history), while
`questions_asked` is still empty — exactly the state `process_founder_response`
maintains, since it never appends to `questions_asked`. -/
def repeat_fu_session : SessionData :=
  { founder_name := "Ada"
    current_topic := "business_model"
    conversation_history :=
      [{ speaker := "founder", content := "We sell software.", topic := "business_model",
         analysis := some follow_up_analysis, question_type := none },
       { speaker := "interviewer", content := bm_follow_up_0, topic := "business_model",
         analysis := none, question_type := some "follow_up" }]
    questions_asked := []
    insights_gathered := []
    rapport_level := 0.5 }

/-- Witness session for the topic-advance invariant: a fresh session at the
first topic. -/
def fresh_session : SessionData :=
  { founder_name := "Ada", current_topic := "introduction", conversation_history := [],
    questions_asked := [], insights_gathered := [], rapport_level := 0.5 }

/-- Witness session with no turns at all, for the zero-coverage case. -/
def empty_session : SessionData := fresh_session

/-- Witness session extending `empty_session` by one on-topic founder turn. -/
def one_turn_session : SessionData :=
  { fresh_session with
    conversation_history :=
      [{ speaker := "founder", content := "We have revenue and customers.",
         topic := "business_model", analysis := none, question_type := none }]
    insights_gathered := [("revenue", true)] }

/-- Witness history for the rapport bounds: a founder turn followed by an
interviewer turn. -/
def two_turn_history : List Turn :=
  [{ speaker := "founder", content := "We are growing fast.", topic := "introduction",
     analysis := some { word_count := 4, sentiment_score := 1, quality_score := 0.2,
                        insights := [], key_phrases := [], needs_follow_up := true },
     question_type := none },
   { speaker := "interviewer", content := "Tell me more.", topic := "introduction",
     analysis := none, question_type := some "follow_up" }]

end VoiceAgent

namespace LiveText

/-- Witness state for the cancellation path, mid-interview. -/
def sample_live_state : LiveState :=
  { founder_name := "Ada", startup_name := "Acme", current_topic := "business_model"
    conversation_history :=
      [{ speaker := "founder", content := "We sell software to restaurants.",
         topic := none, analysis := none }]
    insights_gathered := [("product", true)]
    rapport_level := 0.55
    interview_active := true }

end LiveText

theorem rhe_ge_floor (q : ℚ) : ⌊q⌋ ≤ rhe q := by
  rw [rhe]; split_ifs <;> omega

theorem rhe_le_floor_add_one (q : ℚ) : rhe q ≤ ⌊q⌋ + 1 := by
  rw [rhe]; split_ifs <;> omega

theorem rhe_mono {a b : ℚ} (h : a ≤ b) : rhe a ≤ rhe b := by
  rcases lt_or_eq_of_le (Int.floor_le_floor h) with hf | hf
  · calc rhe a ≤ ⌊a⌋ + 1 := rhe_le_floor_add_one a
      _ ≤ ⌊b⌋ := by omega
      _ ≤ rhe b := rhe_ge_floor b
  · have hfr : Int.fract a ≤ Int.fract b := by
      rw [Int.fract, Int.fract, hf]; linarith
    rw [rhe, rhe, hf]
    split_ifs <;> first | omega | linarith

theorem round2_mono {a b : ℚ} (h : a ≤ b) : round2 a ≤ round2 b := by
  rw [round2, round2]
  have h1 := rhe_mono (show (100:ℚ)*a ≤ 100*b by linarith)
  have h2 : ((rhe (100*a) : ℚ)) ≤ (rhe (100*b) : ℚ) := by exact_mod_cast h1
  linarith

theorem round2_zero : round2 0 = 0 := by
  rw [round2, rhe]; norm_num [Int.fract]

theorem round2_one : round2 1 = 1 := by
  rw [round2, rhe]; norm_num [Int.fract]

theorem round2_nonneg {q : ℚ} (h : 0 ≤ q) : 0 ≤ round2 q := by
  have := round2_mono h; rwa [round2_zero] at this

theorem round2_le_one {q : ℚ} (h : q ≤ 1) : round2 q ≤ 1 := by
  have := round2_mono h; rwa [round2_one] at this

theorem dictLookupD_dictSet_true (d : List (String × Bool)) (k : String) :
    dictLookupD (dictSet d k true) k = true := by
  induction d with
  | nil => simp [dictSet, dictLookupD]
  | cons hd tl ih =>
      obtain ⟨k', v'⟩ := hd
      by_cases h : k' = k <;> simp [dictSet, dictLookupD, h, ih]

theorem dictLookupD_dictSet_ne (d : List (String × Bool)) (k k' : String) (v : Bool)
    (h : k' ≠ k) : dictLookupD (dictSet d k' v) k = dictLookupD d k := by
  induction d with
  | nil => simp [dictSet, dictLookupD, h]
  | cons hd tl ih =>
      obtain ⟨k'', v''⟩ := hd
      by_cases h2 : k'' = k'
      · subst h2
        simp [dictSet, dictLookupD, h]
      · simp [dictSet, dictLookupD, h2, ih]

theorem dictLookupD_dictUpdateTrue_of_true (d : List (String × Bool)) (ks : List String)
    (k : String) (h : dictLookupD d k = true) :
    dictLookupD (dictUpdateTrue d ks) k = true := by
  induction ks generalizing d with
  | nil => exact h
  | cons k' ks ih =>
      rw [dictUpdateTrue, List.foldl_cons]
      by_cases hk : k' = k
      · exact ih _ (hk ▸ dictLookupD_dictSet_true d k)
      · exact ih _ ((dictLookupD_dictSet_ne d k k' true hk).trans h)

theorem dictLookupD_dictUpdateTrue_of_mem (d : List (String × Bool)) (ks : List String)
    (k : String) (h : k ∈ ks) : dictLookupD (dictUpdateTrue d ks) k = true := by
  induction ks generalizing d with
  | nil => cases h
  | cons k' ks ih =>
      rw [dictUpdateTrue, List.foldl_cons]
      rcases List.mem_cons.mp h with h | h
      · subst h
        exact dictLookupD_dictUpdateTrue_of_true _ ks k (dictLookupD_dictSet_true d k)
      · exact ih _ h

theorem dictLookupD_dictUpdateTrue_rev (d : List (String × Bool)) (ks : List String)
    (k : String) (h : dictLookupD (dictUpdateTrue d ks) k = true) :
    dictLookupD d k = true ∨ k ∈ ks := by
  induction ks generalizing d with
  | nil => exact Or.inl h
  | cons k' ks ih =>
      rw [dictUpdateTrue, List.foldl_cons] at h
      by_cases hk : k' = k
      · exact Or.inr (hk ▸ List.mem_cons_self k' ks)
      · rcases ih _ h with h2 | h2
        · exact Or.inl ((dictLookupD_dictSet_ne d k k' true hk).symm.trans h2)
        · exact Or.inr (List.mem_cons_of_mem _ h2)

theorem mem_keys_dictSet (d : List (String × Bool)) (k k' : String) (v : Bool)
    (h : k ∈ d.map Prod.fst) : k ∈ (dictSet d k' v).map Prod.fst := by
  induction d with
  | nil => cases h
  | cons hd tl ih =>
      obtain ⟨k'', v''⟩ := hd
      by_cases h2 : k'' = k'
      · simpa [dictSet, h2] using h
      · rcases List.mem_cons.mp h with h3 | h3
        · simp [dictSet, if_neg h2, h3]
        · simp only [dictSet, if_neg h2, List.map_cons]
          exact List.mem_cons_of_mem _ (ih h3)

theorem mem_keys_dictUpdateTrue (d : List (String × Bool)) (ks : List String)
    (k : String) (h : k ∈ d.map Prod.fst) :
    k ∈ (dictUpdateTrue d ks).map Prod.fst := by
  induction ks generalizing d with
  | nil => exact h
  | cons k' ks ih =>
      rw [dictUpdateTrue, List.foldl_cons]
      exact ih _ (mem_keys_dictSet d k k' true h)

namespace VoiceAgent

theorem sentiment_score_eq (response topic : String) :
    (analyze_response_content response topic).sentiment_score =
      if positive_count response + negative_count response > 0 then
        (positive_count response : ℚ) /
          ((positive_count response : ℚ) + (negative_count response : ℚ))
      else 0.5 := rfl

theorem sentiment_score_range (response topic : String) :
    0 ≤ (analyze_response_content response topic).sentiment_score ∧
      (analyze_response_content response topic).sentiment_score ≤ 1 := by
  rw [sentiment_score_eq]
  by_cases h : positive_count response + negative_count response > 0
  · rw [if_pos h]
    have hs : (0:ℚ) < (positive_count response : ℚ) + (negative_count response : ℚ) := by
      exact_mod_cast h
    constructor
    · positivity
    · rw [div_le_one hs]
      have : (0:ℚ) ≤ (negative_count response : ℚ) := Nat.cast_nonneg _
      linarith
  · rw [if_neg h]; norm_num

theorem extract_topic_insights_empty_utterance (topic : String) :
    extract_topic_insights "" topic = [] := by
  unfold extract_topic_insights topic_keywords_insights
  split_ifs <;> decide

theorem analyze_empty_utterance (topic : String) :
    analyze_response_content "" topic =
      { word_count := 0, sentiment_score := 0.5, quality_score := 2/25,
        insights := [], key_phrases := [], needs_follow_up := true } := by
  have h1 : positive_count "" = 0 := by decide
  have h2 : negative_count "" = 0 := by decide
  have h3 : PyStr.pyWordCount "" = 0 := by decide
  have hlow : PyStr.strLower "" = "" := rfl
  have h4 : extract_topic_insights (PyStr.strLower "") topic = [] := by
    rw [hlow]; exact extract_topic_insights_empty_utterance topic
  have h5 : extract_key_phrases (PyStr.strLower "") = [] := by decide
  have h6 : assess_response_quality "" topic 0 = 2/25 := by
    have hsc : ((specificity_indicators.filter fun indicator =>
        PyStr.strIn indicator (PyStr.strLower "")).length) = 0 := by decide
    simp only [assess_response_quality, hsc]
    norm_num [round2, rhe, Int.fract, min_def]
  simp only [analyze_response_content, h1, h2, h3, h4, h5, h6]
  simp

end VoiceAgent

/-- C3 — the Response Analyzer's sentiment score equals
`positive_count / (positive_count + negative_count)` when that sum is positive,
where the counts are the occurrences of positive- and negative-lexicon words in
the (lowercased) utterance, and equals the neutral 0.5 when the sum is zero. -/
theorem claim_C3_sentiment_formula (response topic : String) :
    (VoiceAgent.analyze_response_content response topic).sentiment_score =
      if VoiceAgent.positive_count response + VoiceAgent.negative_count response > 0 then
        (VoiceAgent.positive_count response : ℚ) /
          ((VoiceAgent.positive_count response : ℚ) + (VoiceAgent.negative_count response : ℚ))
      else 0.5 := rfl

/-- C7 counterexample — on the Scenario A utterance at topic `business_model`
the analyzer does NOT set the `pricing` insight flag: the literal keyword
`"pricing"` does not occur in the utterance, and `extract_topic_insights` only
flags keywords that occur verbatim. -/
theorem claim_C7_counterexample :
    ¬ ("pricing" ∈
        (VoiceAgent.analyze_response_content VoiceAgent.scenarioA_utterance
          "business_model").insights) := by decide

/-- C7 amended — on the Scenario A utterance at topic `business_model` the
analyzer sets the `customers` insight flag (but not `pricing`, which does not
occur in the text), and the quality score is 0.48, strictly greater than 0.4. -/
theorem claim_C7_scenarioA_amended :
    "customers" ∈
        (VoiceAgent.analyze_response_content VoiceAgent.scenarioA_utterance
          "business_model").insights ∧
    "pricing" ∉
        (VoiceAgent.analyze_response_content VoiceAgent.scenarioA_utterance
          "business_model").insights ∧
    (VoiceAgent.analyze_response_content VoiceAgent.scenarioA_utterance
          "business_model").quality_score = 12/25 ∧
    (0.4 : ℚ) <
      (VoiceAgent.analyze_response_content VoiceAgent.scenarioA_utterance
          "business_model").quality_score := by
  have hwc : PyStr.pyWordCount VoiceAgent.scenarioA_utterance = 11 := by decide
  have hsc : ((VoiceAgent.specificity_indicators.filter fun indicator =>
      PyStr.strIn indicator (PyStr.strLower VoiceAgent.scenarioA_utterance)).length) = 2 := by
    decide
  have hq : (VoiceAgent.analyze_response_content VoiceAgent.scenarioA_utterance
      "business_model").quality_score = 12/25 := by
    simp only [VoiceAgent.analyze_response_content, hwc]
    simp only [VoiceAgent.assess_response_quality, hsc]
    norm_num [round2, rhe, Int.fract, min_def]
  exact ⟨by decide, by decide, hq, by rw [hq]; norm_num⟩

/-- C4 counterexample — the analyzer's degenerate outputs are not the fully
neutral record the claim describes: on the empty utterance the quality score is
0.08, not 0, and on an unrecognized topic the sentiment score is still computed
from the text (here 1.0, not the neutral 0.5). -/
theorem claim_C4_counterexample :
    (VoiceAgent.analyze_response_content "" "introduction").quality_score ≠ 0 ∧
    (VoiceAgent.analyze_response_content "I am excited" "unknown_topic").sentiment_score
      ≠ 0.5 := by
  constructor
  · rw [show (VoiceAgent.analyze_response_content "" "introduction").quality_score = 2/25
        from congrArg VoiceAgent.AnalysisRecord.quality_score
          (VoiceAgent.analyze_empty_utterance "introduction")]
    norm_num
  · rw [VoiceAgent.sentiment_score_eq]
    have h1 : VoiceAgent.positive_count "I am excited" = 1 := by decide
    have h2 : VoiceAgent.negative_count "I am excited" = 0 := by decide
    rw [h1, h2]
    norm_num

/-- C4 amended — on the empty utterance the analyzer returns the record with
sentiment 0.5, quality 0.08 (not 0), empty insight flags and
`needs_follow_up = true`; on an unrecognized topic the insight-flag set is
empty while sentiment and quality are computed from the utterance as usual.
In both cases the function is total (no error is raised), so the session
remains advanceable. -/
theorem claim_C4_neutral_record_amended :
    (∀ topic : String,
       (VoiceAgent.analyze_response_content "" topic).sentiment_score = 0.5 ∧
       (VoiceAgent.analyze_response_content "" topic).quality_score = 2/25 ∧
       (VoiceAgent.analyze_response_content "" topic).insights = [] ∧
       (VoiceAgent.analyze_response_content "" topic).needs_follow_up = true) ∧
    (∀ (response topic : String), topic ∉ VoiceAgent.recognized_topics →
       (VoiceAgent.analyze_response_content response topic).insights = []) := by
  constructor
  · intro topic
    rw [VoiceAgent.analyze_empty_utterance topic]
    exact ⟨rfl, rfl, rfl, rfl⟩
  · intro response topic h
    show VoiceAgent.extract_topic_insights (PyStr.strLower response) topic = []
    unfold VoiceAgent.extract_topic_insights VoiceAgent.topic_keywords_insights
    split_ifs with h1 h2 h3 h4 h5 h6 h7 h8
    all_goals first
      | rfl
      | (subst_vars; simp [VoiceAgent.recognized_topics] at h)

/-- C4 witness — instantiation of the amended claim at the empty utterance and
at the unrecognized topic key `"bogus"`. -/
theorem claim_C4_witness :
    (VoiceAgent.analyze_response_content "" "introduction").insights = [] ∧
    (VoiceAgent.analyze_response_content "hello" "bogus").insights = [] :=
  ⟨(claim_C4_neutral_record_amended.1 "introduction").2.2.1,
   claim_C4_neutral_record_amended.2 "hello" "bogus" (by decide)⟩

namespace VoiceAgent

theorem determine_next_topic_eq_flowSucc (s : SessionData)
    (h : s.current_topic ∈ topic_flow) :
    determine_next_topic s = flowSucc s.current_topic := by
  have h9 : s.current_topic = "introduction" ∨ s.current_topic = "business_model" ∨
      s.current_topic = "market_opportunity" ∨ s.current_topic = "traction_metrics" ∨
      s.current_topic = "team_execution" ∨ s.current_topic = "financial_planning" ∨
      s.current_topic = "product_development" ∨ s.current_topic = "risks_challenges" ∨
      s.current_topic = "vision_strategy" := by
    simpa [topic_flow] using h
  rcases h9 with h|h|h|h|h|h|h|h|h <;>
    simp only [determine_next_topic, flowSucc, h] <;> decide

end VoiceAgent

/-- C1 — the transition rule of the controller after an analyzed subject turn:
with `needs_follow_up` true the session stays on the current topic with a
follow-up question; with `needs_follow_up` false and coverage at least the
fixed threshold 0.7 it advances to the next topic of the fixed sequence (the
terminal `"conclusion"` after the last topic); otherwise it stays on the
current topic with a continuation question. -/
theorem claim_C1_transition_rule (s : VoiceAgent.SessionData)
    (ra : VoiceAgent.AnalysisRecord) :
    (ra.needs_follow_up = true →
       (VoiceAgent.generate_next_conversational_question s ra).topic = s.current_topic ∧
       (VoiceAgent.generate_next_conversational_question s ra).qtype = "follow_up") ∧
    (ra.needs_follow_up = false →
       VoiceAgent.calculate_topic_coverage s s.current_topic < 0.7 →
       (VoiceAgent.generate_next_conversational_question s ra).topic = s.current_topic ∧
       (VoiceAgent.generate_next_conversational_question s ra).qtype = "continuation") ∧
    (ra.needs_follow_up = false →
       0.7 ≤ VoiceAgent.calculate_topic_coverage s s.current_topic →
       (VoiceAgent.generate_next_conversational_question s ra).topic =
         VoiceAgent.determine_next_topic s ∧
       (VoiceAgent.generate_next_conversational_question s ra).qtype = "transition") ∧
    (s.current_topic ∈ VoiceAgent.topic_flow →
       VoiceAgent.determine_next_topic s = VoiceAgent.flowSucc s.current_topic) := by
  refine ⟨?_, ?_, ?_, VoiceAgent.determine_next_topic_eq_flowSucc s⟩
  · intro h
    constructor <;>
      simp [VoiceAgent.generate_next_conversational_question, h,
        VoiceAgent.generate_follow_up_question]
  · intro h hc
    simp only [VoiceAgent.generate_next_conversational_question, h, Bool.false_eq_true,
      if_false, if_pos hc]
    exact ⟨rfl, rfl⟩
  · intro h hc
    simp only [VoiceAgent.generate_next_conversational_question, h, Bool.false_eq_true,
      if_false, if_neg (not_lt.mpr hc)]
    exact ⟨rfl, rfl⟩

/-- C1 witness — a session at `business_model` with all four coverage keywords
flagged and a 40-word on-topic founder turn has coverage 0.71 ≥ 0.7, and the
controller advances to `market_opportunity` with a transition question. -/
theorem claim_C1_witness :
    VoiceAgent.no_follow_up_analysis.needs_follow_up = false ∧
    (0.7 : ℚ) ≤ VoiceAgent.calculate_topic_coverage VoiceAgent.covered_bm_session
        VoiceAgent.covered_bm_session.current_topic ∧
    (VoiceAgent.generate_next_conversational_question VoiceAgent.covered_bm_session
        VoiceAgent.no_follow_up_analysis).topic = "market_opportunity" ∧
    (VoiceAgent.generate_next_conversational_question VoiceAgent.covered_bm_session
        VoiceAgent.no_follow_up_analysis).qtype = "transition" := by
  have hcur : VoiceAgent.covered_bm_session.current_topic = "business_model" := rfl
  have h1 : (VoiceAgent.topic_founder_messages VoiceAgent.covered_bm_session
      "business_model").isEmpty = false := by decide
  have h2 : ((VoiceAgent.topic_founder_messages VoiceAgent.covered_bm_session
      "business_model").map fun msg => PyStr.pyWordCount msg.content).sum = 40 := by decide
  have h3 : ((VoiceAgent.topic_keywords_coverage "business_model").filter fun keyword =>
      dictLookupD VoiceAgent.covered_bm_session.insights_gathered keyword).length = 4 := by
    decide
  have h4 : (VoiceAgent.topic_keywords_coverage "business_model").isEmpty = false := by decide
  have h5 : (VoiceAgent.topic_keywords_coverage "business_model").length = 4 := by decide
  have hcov : VoiceAgent.calculate_topic_coverage VoiceAgent.covered_bm_session
      "business_model" = 71/100 := by
    simp only [VoiceAgent.calculate_topic_coverage, h1, h2, h3, h4, h5]
    norm_num [round2, rhe, Int.fract, min_def]
  have hle : (0.7 : ℚ) ≤ VoiceAgent.calculate_topic_coverage VoiceAgent.covered_bm_session
      VoiceAgent.covered_bm_session.current_topic := by
    rw [hcur, hcov]; norm_num
  have h := (claim_C1_transition_rule VoiceAgent.covered_bm_session
      VoiceAgent.no_follow_up_analysis).2.2.1 rfl hle
  have hd : VoiceAgent.determine_next_topic VoiceAgent.covered_bm_session =
      "market_opportunity" := by decide
  exact ⟨rfl, hle, h.1.trans hd, h.2⟩

namespace VoiceAgent

theorem round2_combo_nonneg {ws kc : ℚ} (h1 : 0 ≤ ws) (h2 : 0 ≤ kc) :
    0 ≤ round2 (ws * 0.4 + kc * 0.6) :=
  round2_nonneg (add_nonneg (mul_nonneg h1 (by norm_num)) (mul_nonneg h2 (by norm_num)))

theorem coverage_eq_zero_of_no_turns (s : SessionData) (topic : String)
    (h : topic_founder_messages s topic = []) :
    calculate_topic_coverage s topic = 0 := by
  simp only [calculate_topic_coverage, h]
  norm_num

theorem coverage_nonneg (s : SessionData) (topic : String) :
    0 ≤ calculate_topic_coverage s topic := by
  simp only [calculate_topic_coverage]
  split_ifs with h h2
  · norm_num
  · exact round2_combo_nonneg (le_min (by positivity) (by norm_num)) le_rfl
  · exact round2_combo_nonneg (le_min (by positivity) (by norm_num)) (by positivity)

theorem coverage_mono (s1 s2 : SessionData) (topic : String)
    (hext : ∃ ext, s2.conversation_history = s1.conversation_history ++ ext)
    (hins : ∀ k, dictLookupD s1.insights_gathered k = true →
                 dictLookupD s2.insights_gathered k = true) :
    calculate_topic_coverage s1 topic ≤ calculate_topic_coverage s2 topic := by
  obtain ⟨ext, hext⟩ := hext
  have htm : topic_founder_messages s2 topic =
      topic_founder_messages s1 topic ++
        (ext.filter fun msg => msg.topic == topic && msg.speaker == "founder") := by
    rw [topic_founder_messages, topic_founder_messages, hext, List.filter_append]
  by_cases h1 : topic_founder_messages s1 topic = []
  · rw [coverage_eq_zero_of_no_turns s1 topic h1]
    exact coverage_nonneg s2 topic
  · have h2 : topic_founder_messages s2 topic ≠ [] := by
      rw [htm]
      intro hh
      exact h1 (List.append_eq_nil.mp hh).1
    have htw : ((topic_founder_messages s1 topic).map fun msg =>
          PyStr.pyWordCount msg.content).sum ≤
        ((topic_founder_messages s2 topic).map fun msg =>
          PyStr.pyWordCount msg.content).sum := by
      rw [htm, List.map_append, List.sum_append]
      exact Nat.le_add_right _ _
    have hcov : ((topic_keywords_coverage topic).filter fun keyword =>
          dictLookupD s1.insights_gathered keyword).length ≤
        ((topic_keywords_coverage topic).filter fun keyword =>
          dictLookupD s2.insights_gathered keyword).length := by
      rw [← List.countP_eq_length_filter, ← List.countP_eq_length_filter]
      exact List.countP_mono_left fun x _ hx => hins x hx
    have hc1 : ¬((topic_founder_messages s1 topic).isEmpty = true) := by simpa using h1
    have hc2 : ¬((topic_founder_messages s2 topic).isEmpty = true) := by simpa using h2
    have hkc : (if (topic_keywords_coverage topic).isEmpty = true then (0:ℚ)
          else (((topic_keywords_coverage topic).filter fun keyword =>
            dictLookupD s1.insights_gathered keyword).length : ℚ) /
              ((topic_keywords_coverage topic).length : ℚ)) ≤
        (if (topic_keywords_coverage topic).isEmpty = true then (0:ℚ)
          else (((topic_keywords_coverage topic).filter fun keyword =>
            dictLookupD s2.insights_gathered keyword).length : ℚ) /
              ((topic_keywords_coverage topic).length : ℚ)) := by
      split_ifs with he
      · exact le_refl 0
      · have hlen : (0:ℚ) < ((topic_keywords_coverage topic).length : ℚ) := by
          have : topic_keywords_coverage topic ≠ [] := by simpa using he
          have : 0 < (topic_keywords_coverage topic).length :=
            List.length_pos.mpr this
          exact_mod_cast this
        rw [div_le_div_iff_of_pos_right hlen]
        exact_mod_cast hcov
    have hws : min ((((topic_founder_messages s1 topic).map fun msg =>
          PyStr.pyWordCount msg.content).sum : ℚ) / 150) 1.0 ≤
        min ((((topic_founder_messages s2 topic).map fun msg =>
          PyStr.pyWordCount msg.content).sum : ℚ) / 150) 1.0 := by
      gcongr
    simp only [calculate_topic_coverage]
    rw [if_neg hc1, if_neg hc2]
    apply round2_mono
    exact add_le_add (mul_le_mul_of_nonneg_right hws (by norm_num))
      (mul_le_mul_of_nonneg_right hkc (by norm_num))

end VoiceAgent

/-- C5 — coverage is exactly 0 when the history holds no founder turns for the
topic, and is monotone for append-only histories with monotone insight flags:
extending the history and turning more flags true never decreases the score. -/
theorem claim_C5_coverage_zero_and_monotone :
    (∀ (s : VoiceAgent.SessionData) (topic : String),
       VoiceAgent.topic_founder_messages s topic = [] →
       VoiceAgent.calculate_topic_coverage s topic = 0) ∧
    (∀ (s1 s2 : VoiceAgent.SessionData) (topic : String),
       (∃ ext, s2.conversation_history = s1.conversation_history ++ ext) →
       (∀ k, dictLookupD s1.insights_gathered k = true →
             dictLookupD s2.insights_gathered k = true) →
       VoiceAgent.calculate_topic_coverage s1 topic ≤
         VoiceAgent.calculate_topic_coverage s2 topic) :=
  ⟨VoiceAgent.coverage_eq_zero_of_no_turns, VoiceAgent.coverage_mono⟩

/-- C5 witness — the empty session has coverage 0 on `business_model`, and
appending one on-topic founder turn while flagging `revenue` does not decrease
the coverage. -/
theorem claim_C5_witness :
    VoiceAgent.calculate_topic_coverage VoiceAgent.empty_session "business_model" = 0 ∧
    VoiceAgent.calculate_topic_coverage VoiceAgent.empty_session "business_model" ≤
      VoiceAgent.calculate_topic_coverage VoiceAgent.one_turn_session "business_model" := by
  constructor
  · exact claim_C5_coverage_zero_and_monotone.1 VoiceAgent.empty_session "business_model" rfl
  · refine claim_C5_coverage_zero_and_monotone.2 VoiceAgent.empty_session
      VoiceAgent.one_turn_session "business_model"
      ⟨VoiceAgent.one_turn_session.conversation_history, rfl⟩ ?_
    intro k hk
    simp [dictLookupD, VoiceAgent.empty_session, VoiceAgent.fresh_session] at hk

theorem list_avg_nonneg (l : List ℚ) (h : ∀ x ∈ l, 0 ≤ x) :
    0 ≤ l.sum / (l.length : ℚ) :=
  div_nonneg (List.sum_nonneg h) (by positivity)

theorem list_avg_le_one (l : List ℚ) (hne : l ≠ []) (h : ∀ x ∈ l, x ≤ 1) :
    l.sum / (l.length : ℚ) ≤ 1 := by
  have hlen : (0:ℚ) < (l.length : ℚ) := by
    exact_mod_cast List.length_pos.mpr hne
  rw [div_le_one hlen]
  have := List.sum_le_card_nsmul l 1 h
  simpa [nsmul_eq_mul] using this

/-- C6 — on any history of fewer than two entries the rapport computation
returns the neutral default 0.5; on any reachable longer history (one that
contains a founder turn whose stored sentiments are in range, as every analyzer
output is) it returns a defined value in [0,1]. -/
theorem claim_C6_rapport_bounds :
    (∀ h : List VoiceAgent.Turn, h.length < 2 →
        VoiceAgent.calculate_rapport_level h = some 0.5) ∧
    (∀ h : List VoiceAgent.Turn,
        (∃ t ∈ h, t.speaker = "founder") →
        (∀ t ∈ h, t.speaker = "founder" →
            0 ≤ VoiceAgent.turn_sentiment t ∧ VoiceAgent.turn_sentiment t ≤ 1) →
        ∃ r, VoiceAgent.calculate_rapport_level h = some r ∧ 0 ≤ r ∧ r ≤ 1) ∧
    (∀ response topic : String,
        0 ≤ (VoiceAgent.analyze_response_content response topic).sentiment_score ∧
        (VoiceAgent.analyze_response_content response topic).sentiment_score ≤ 1) := by
  refine ⟨?_, ?_, VoiceAgent.sentiment_score_range⟩
  · intro h hl
    simp only [VoiceAgent.calculate_rapport_level, if_pos hl]
  · intro h hf hsent
    by_cases hl : h.length < 2
    · exact ⟨0.5, by simp only [VoiceAgent.calculate_rapport_level, if_pos hl],
        by norm_num, by norm_num⟩
    · obtain ⟨t0, ht0, ht0s⟩ := hf
      have hfr : (h.filter fun msg => msg.speaker == "founder") ≠ [] :=
        List.ne_nil_of_mem (List.mem_filter.mpr ⟨ht0, by simp [ht0s]⟩)
      have hfrE : ¬((h.filter fun msg => msg.speaker == "founder").isEmpty = true) := by
        simpa using hfr
      have hseNe : ((h.filter fun msg => msg.speaker == "founder").map
          VoiceAgent.turn_sentiment) ≠ [] := by
        simpa using hfr
      have hseE : ¬(((h.filter fun msg => msg.speaker == "founder").map
          VoiceAgent.turn_sentiment).isEmpty = true) := by
        simpa using hseNe
      have hmem : ∀ x ∈ (h.filter fun msg => msg.speaker == "founder").map
          VoiceAgent.turn_sentiment, 0 ≤ x ∧ x ≤ 1 := by
        intro x hx
        obtain ⟨t, ht, rfl⟩ := List.mem_map.mp hx
        obtain ⟨hth, hts⟩ := List.mem_filter.mp ht
        exact hsent t hth (by simpa using hts)
      have havg0 : 0 ≤ ((h.filter fun msg => msg.speaker == "founder").map
            VoiceAgent.turn_sentiment).sum /
          ((((h.filter fun msg => msg.speaker == "founder").map
            VoiceAgent.turn_sentiment).length : ℚ)) :=
        list_avg_nonneg _ fun x hx => (hmem x hx).1
      have havg1 : ((h.filter fun msg => msg.speaker == "founder").map
            VoiceAgent.turn_sentiment).sum /
          ((((h.filter fun msg => msg.speaker == "founder").map
            VoiceAgent.turn_sentiment).length : ℚ)) ≤ 1 :=
        list_avg_le_one _ hseNe fun x hx => (hmem x hx).2
      have hls0 : (0:ℚ) ≤ min ((((h.filter fun msg => msg.speaker == "founder").map
            fun msg => (PyStr.pyWordCount msg.content : ℚ)).sum /
          (((h.filter fun msg => msg.speaker == "founder").length : ℚ))) / 100) 1.0 := by
        refine le_min (div_nonneg (div_nonneg (List.sum_nonneg ?_) (by positivity))
          (by norm_num)) (by norm_num)
        intro x hx
        obtain ⟨t, _, rfl⟩ := List.mem_map.mp hx
        positivity
      have hls1 : min ((((h.filter fun msg => msg.speaker == "founder").map
            fun msg => (PyStr.pyWordCount msg.content : ℚ)).sum /
          (((h.filter fun msg => msg.speaker == "founder").length : ℚ))) / 100) 1.0 ≤ 1 :=
        (min_le_right _ _).trans (by norm_num)
      have hEq : VoiceAgent.calculate_rapport_level h =
          some (round2
            ((min ((((h.filter fun msg => msg.speaker == "founder").map
                  fun msg => (PyStr.pyWordCount msg.content : ℚ)).sum /
                (((h.filter fun msg => msg.speaker == "founder").length : ℚ)) / 100)) 1.0) *
              0.4 +
            (((h.filter fun msg => msg.speaker == "founder").map
                  VoiceAgent.turn_sentiment).sum /
                ((((h.filter fun msg => msg.speaker == "founder").map
                  VoiceAgent.turn_sentiment).length : ℚ))) * 0.6)) := by
        simp only [VoiceAgent.calculate_rapport_level]
        rw [if_neg hl, if_neg hfrE, if_neg hseE]
      refine ⟨_, hEq, ?_, ?_⟩
      · exact round2_nonneg (add_nonneg (mul_nonneg hls0 (by norm_num))
          (mul_nonneg havg0 (by norm_num)))
      · apply round2_le_one
        have h1 := mul_le_mul_of_nonneg_right hls1 (show (0:ℚ) ≤ 0.4 by norm_num)
        have h2 := mul_le_mul_of_nonneg_right havg1 (show (0:ℚ) ≤ 0.6 by norm_num)
        linarith

/-- C6 witness — instantiation at the empty history and at a concrete two-turn
history containing one founder turn with sentiment 1. -/
theorem claim_C6_witness :
    VoiceAgent.calculate_rapport_level [] = some 0.5 ∧
    ∃ r, VoiceAgent.calculate_rapport_level VoiceAgent.two_turn_history = some r ∧
      0 ≤ r ∧ r ≤ 1 := by
  constructor
  · exact claim_C6_rapport_bounds.1 [] (by norm_num)
  · refine claim_C6_rapport_bounds.2.1 VoiceAgent.two_turn_history ?_ ?_
    · exact ⟨_, List.mem_cons_self _ _, rfl⟩
    · intro t ht hts
      fin_cases ht
      · constructor <;> norm_num [VoiceAgent.turn_sentiment]
      · simp at hts

/-- C10 — each call of `process_founder_response` appends exactly two entries:
the founder turn carrying its analysis record, then the interviewer turn whose
topic becomes the new `current_topic`; all earlier entries are untouched, and
the insight map only gains keys (flags are set true, never removed or
falsified). -/
theorem claim_C10_exchange_invariant (s : VoiceAgent.SessionData) (resp : String) :
    ∃ ft it : VoiceAgent.Turn,
      (VoiceAgent.process_founder_response s resp).conversation_history =
        s.conversation_history ++ [ft, it] ∧
      ft.speaker = "founder" ∧ ft.content = resp ∧ ft.topic = s.current_topic ∧
      ft.analysis = some (VoiceAgent.analyze_response_content resp s.current_topic) ∧
      it.speaker = "interviewer" ∧ it.analysis = none ∧
      (VoiceAgent.process_founder_response s resp).current_topic = it.topic ∧
      (∀ k, dictLookupD s.insights_gathered k = true →
         dictLookupD (VoiceAgent.process_founder_response s resp).insights_gathered k
           = true) ∧
      (∀ k, dictLookupD (VoiceAgent.process_founder_response s resp).insights_gathered k
           = true →
         dictLookupD s.insights_gathered k = true ∨
           k ∈ (VoiceAgent.analyze_response_content resp s.current_topic).insights) ∧
      (∀ k, k ∈ s.insights_gathered.map Prod.fst →
         k ∈ (VoiceAgent.process_founder_response s resp).insights_gathered.map
           Prod.fst) := by
  simp only [VoiceAgent.process_founder_response]
  refine ⟨_, _, List.append_assoc _ _ _, rfl, rfl, rfl, rfl, rfl, rfl, rfl, ?_, ?_, ?_⟩
  · intro k hk
    exact dictLookupD_dictUpdateTrue_of_true _ _ _ hk
  · intro k hk
    exact dictLookupD_dictUpdateTrue_rev _ _ _ hk
  · intro k hk
    exact mem_keys_dictUpdateTrue _ _ _ hk

namespace VoiceAgent

theorem coverage_conclusion_lt (s : SessionData) :
    calculate_topic_coverage s "conclusion" < 0.7 := by
  simp only [calculate_topic_coverage]
  split_ifs with h h2
  · norm_num
  · have hws : min ((((topic_founder_messages s "conclusion").map fun msg =>
        PyStr.pyWordCount msg.content).sum : ℚ) / 150) 1.0 ≤ 1.0 := min_le_right _ _
    have h1 := mul_le_mul_of_nonneg_right hws (show (0:ℚ) ≤ 0.4 by norm_num)
    calc round2 (min ((((topic_founder_messages s "conclusion").map fun msg =>
          PyStr.pyWordCount msg.content).sum : ℚ) / 150) 1.0 * 0.4 + 0 * 0.6)
        ≤ round2 (2/5) := round2_mono (by linarith)
      _ < 0.7 := by norm_num [round2, rhe, Int.fract]
  · exact absurd rfl h2

theorem gnc_topic_cases (s : SessionData) (ra : AnalysisRecord) :
    (generate_next_conversational_question s ra).topic = s.current_topic ∨
    ((generate_next_conversational_question s ra).topic = determine_next_topic s ∧
     ¬ calculate_topic_coverage s s.current_topic < 0.7) := by
  simp only [generate_next_conversational_question]
  split_ifs with h1 h2
  · exact Or.inl rfl
  · exact Or.inl rfl
  · exact Or.inr ⟨rfl, h2⟩

theorem step_stay_or_succ (s : SessionData) (resp : String)
    (h : s.current_topic ∈ reachable_topics) :
    (process_founder_response s resp).current_topic = s.current_topic ∨
    (process_founder_response s resp).current_topic = flowSucc s.current_topic := by
  have key : ∀ (s1 : SessionData) (ra : AnalysisRecord),
      s1.current_topic = s.current_topic →
      ((generate_next_conversational_question s1 ra).topic = s.current_topic ∨
       (generate_next_conversational_question s1 ra).topic = flowSucc s.current_topic) := by
    intro s1 ra h1
    rcases gnc_topic_cases s1 ra with hc | ⟨hc, hnc⟩
    · exact Or.inl (hc.trans h1)
    · by_cases hm : s.current_topic ∈ topic_flow
      · refine Or.inr ?_
        rw [hc, determine_next_topic_eq_flowSucc s1 (h1 ▸ hm), h1]
      · have hcon : s.current_topic = "conclusion" := by
          rcases List.mem_append.mp h with h' | h'
          · exact absurd h' hm
          · simpa using h'
        exact absurd (by rw [h1, hcon]; exact coverage_conclusion_lt s1) hnc
  exact key _ _ rfl

theorem step_valid (s : SessionData) (resp : String)
    (h : s.current_topic ∈ reachable_topics) :
    (process_founder_response s resp).current_topic ∈ reachable_topics := by
  rcases step_stay_or_succ s resp h with h1 | h1
  · rwa [h1]
  · rw [h1]
    have hall : ∀ t ∈ reachable_topics, flowSucc t ∈ reachable_topics := by decide
    exact hall _ h

theorem step_rank (s : SessionData) (resp : String)
    (h : s.current_topic ∈ reachable_topics) :
    topicRank s.current_topic ≤ topicRank (process_founder_response s resp).current_topic := by
  rcases step_stay_or_succ s resp h with h1 | h1
  · rw [h1]
  · rw [h1]
    have hall : ∀ t ∈ reachable_topics, topicRank t ≤ topicRank (flowSucc t) := by decide
    exact hall _ h

theorem multi_step_rank (resps : List String) (s : SessionData)
    (h : s.current_topic ∈ reachable_topics) :
    topicRank s.current_topic ≤
      topicRank ((resps.foldl process_founder_response s).current_topic) ∧
    (resps.foldl process_founder_response s).current_topic ∈ reachable_topics := by
  induction resps generalizing s with
  | nil => exact ⟨le_refl _, h⟩
  | cons r rs ih =>
      rw [List.foldl_cons]
      have h1 := step_valid s r h
      have h2 := step_rank s r h
      exact ⟨h2.trans (ih _ h1).1, (ih _ h1).2⟩

end VoiceAgent

/-- C2 — starting from any session whose topic is in the fixed sequence (or
terminal), one exchange either keeps the topic or moves to its immediate
successor along the fixed order, the topic stays inside the sequence-plus-
terminal set, and over any sequence of exchanges the topic's rank along the
order never decreases — no earlier topic is ever revisited.  (This embedded
pipeline has no cancellation transition; cancellation lives in the text-mode
driver, where it ends the loop without touching the topic.) -/
theorem claim_C2_monotonic_topic_advance (s : VoiceAgent.SessionData) (resp : String)
    (h : s.current_topic ∈ VoiceAgent.reachable_topics) :
    ((VoiceAgent.process_founder_response s resp).current_topic = s.current_topic ∨
     (VoiceAgent.process_founder_response s resp).current_topic =
       VoiceAgent.flowSucc s.current_topic) ∧
    (VoiceAgent.process_founder_response s resp).current_topic ∈
      VoiceAgent.reachable_topics ∧
    VoiceAgent.topicRank s.current_topic ≤
      VoiceAgent.topicRank (VoiceAgent.process_founder_response s resp).current_topic ∧
    (∀ resps : List String,
       VoiceAgent.topicRank s.current_topic ≤
         VoiceAgent.topicRank
           ((resps.foldl VoiceAgent.process_founder_response s).current_topic)) :=
  ⟨VoiceAgent.step_stay_or_succ s resp h, VoiceAgent.step_valid s resp h,
   VoiceAgent.step_rank s resp h,
   fun resps => (VoiceAgent.multi_step_rank resps s h).1⟩

/-- C2 witness — instantiation at a fresh session on `introduction` and the
response `"hi"`. -/
theorem claim_C2_witness :
    ((VoiceAgent.process_founder_response VoiceAgent.fresh_session "hi").current_topic =
       VoiceAgent.fresh_session.current_topic ∨
     (VoiceAgent.process_founder_response VoiceAgent.fresh_session "hi").current_topic =
       VoiceAgent.flowSucc VoiceAgent.fresh_session.current_topic) ∧
    VoiceAgent.topicRank VoiceAgent.fresh_session.current_topic ≤
      VoiceAgent.topicRank
        (VoiceAgent.process_founder_response VoiceAgent.fresh_session "hi").current_topic := by
  have h := claim_C2_monotonic_topic_advance VoiceAgent.fresh_session "hi" (by decide)
  exact ⟨h.1, h.2.2.1⟩

/-- C9 counterexample — with `needs_follow_up` true at `business_model` in a
reachable state where the first follow-up was already asked (it sits in the
history) but `questions_asked` is still empty — which is exactly what the
pipeline maintains, since it never appends to `questions_asked` — the generator
returns the already-asked first bank entry again even though the second entry
is still unseen: it does not select the next unseen entry. -/
theorem claim_C9_counterexample :
    VoiceAgent.follow_up_analysis.needs_follow_up = true ∧
    (VoiceAgent.generate_next_conversational_question VoiceAgent.repeat_fu_session
        VoiceAgent.follow_up_analysis).message = VoiceAgent.bm_follow_up_0 ∧
    VoiceAgent.bm_follow_up_0 ∈
      (VoiceAgent.repeat_fu_session.conversation_history.map VoiceAgent.Turn.content) ∧
    VoiceAgent.bm_follow_up_1 ∉
      (VoiceAgent.repeat_fu_session.conversation_history.map VoiceAgent.Turn.content) := by
  exact ⟨rfl, by decide, by decide, by decide⟩

/-- C9 amended — when staying on-topic because `needs_follow_up` is true, the
generator selects the follow-up bank entry at index
`len(questions_asked) mod bank size` (using the introduction bank for topics
without one); the bank is never empty, so selection never fails — but the
pipeline never appends to `questions_asked`, so the index never advances and
the same entry can repeat verbatim while other entries stay unseen. -/
theorem claim_C9_follow_up_selection_amended :
    (∀ (s : VoiceAgent.SessionData) (ra : VoiceAgent.AnalysisRecord),
       ra.needs_follow_up = true →
       (VoiceAgent.generate_next_conversational_question s ra).topic = s.current_topic ∧
       (VoiceAgent.generate_next_conversational_question s ra).message =
         ((VoiceAgent.follow_up_bank s.founder_name s.current_topic).getD
             ((VoiceAgent.follow_up_bank s.founder_name "introduction").getD [])).getD
           (s.questions_asked.length %
             ((VoiceAgent.follow_up_bank s.founder_name s.current_topic).getD
               ((VoiceAgent.follow_up_bank s.founder_name "introduction").getD [])).length)
           "" ∧
       0 < ((VoiceAgent.follow_up_bank s.founder_name s.current_topic).getD
             ((VoiceAgent.follow_up_bank s.founder_name "introduction").getD [])).length) ∧
    (∀ (s : VoiceAgent.SessionData) (resp : String),
       (VoiceAgent.process_founder_response s resp).questions_asked =
         s.questions_asked) := by
  constructor
  · intro s ra h
    refine ⟨?_, ?_, ?_⟩
    · simp [VoiceAgent.generate_next_conversational_question, h,
        VoiceAgent.generate_follow_up_question]
    · simp [VoiceAgent.generate_next_conversational_question, h,
        VoiceAgent.generate_follow_up_question]
    · simp only [VoiceAgent.follow_up_bank]
      split_ifs <;> simp
  · intro s resp
    rfl

/-- C9 witness — instantiation of the amended claim at the counterexample
session: the follow-up stays on `business_model` and the exchange leaves
`questions_asked` empty. -/
theorem claim_C9_witness :
    (VoiceAgent.generate_next_conversational_question VoiceAgent.repeat_fu_session
        VoiceAgent.follow_up_analysis).topic = "business_model" ∧
    (VoiceAgent.process_founder_response VoiceAgent.repeat_fu_session
        "hello").questions_asked = [] := by
  constructor
  · exact ((claim_C9_follow_up_selection_amended.1 VoiceAgent.repeat_fu_session
      VoiceAgent.follow_up_analysis rfl).1).trans rfl
  · exact (claim_C9_follow_up_selection_amended.2 VoiceAgent.repeat_fu_session
      "hello").trans rfl

/-- C8 — an utterance equal to a cancellation sentinel is detected by
`listen_for_response` before the analyzer runs, and the loop body then
short-circuits: the returned state is exactly the previous state (no history
entry, no insight, no topic or rapport change — zero ≤ one additional entries)
with the `stopped` outcome; the closing summary's recommendation is a total
function of the preceding state and always yields one of the four fixed
labels. -/
theorem claim_C8_cancellation_short_circuit (st : LiveText.LiveState) (raw : String)
    (h : PyStr.strLower (PyStr.pyStrip raw) ∈ LiveText.stop_phrases) :
    LiveText.interviewStep st raw = (st, LiveText.StepResult.stopped) ∧
    LiveText.interviewRecommendation st ∈
      ["High Interest - Recommend Next Steps", "Moderate Interest - Further Evaluation",
       "Limited Interest - Pass", "Strong Interest"] := by
  constructor
  · simp only [LiveText.interviewStep, LiveText.listen_for_response, if_pos h]
  · simp only [LiveText.interviewRecommendation]
    split_ifs <;> simp

/-- C8 witness — the sentinel `"stop interview"` typed mid-interview leaves the
sample state untouched and stops the loop. -/
theorem claim_C8_witness :
    LiveText.interviewStep LiveText.sample_live_state "stop interview" =
      (LiveText.sample_live_state, LiveText.StepResult.stopped) ∧
    LiveText.interviewRecommendation LiveText.sample_live_state ∈
      ["High Interest - Recommend Next Steps", "Moderate Interest - Further Evaluation",
       "Limited Interest - Pass", "Strong Interest"] :=
  claim_C8_cancellation_short_circuit LiveText.sample_live_state "stop interview"
    (by decide)
